import Mathlib

/-
  Verification of the Glitch Cube conversation relay.

  The development shallowly embeds the two revisions of the Home Assistant
  custom component `glitchcube_conversation` present in the repository:

  * `Stateful`   — src/config/homeassistant/custom_components/
                   glitchcube_conversation/conversation.py
                   (session registry, dynamic host resolution,
                    success-path continuation defaults to True)
  * `Production` — src/data/production/homeassistant/custom_components/
                   glitchcube_conversation/conversation.py
                   (no session state, static URL,
                    success-path continuation defaults to False)

  Python dict lookups with defaults (`d.get(k, v)`) are embedded as `Option`
  fields read with `Option.getD`.  The asynchronous HTTP call is embedded by
  an explicit `HttpOutcome` parameter enumerating the ways the `try` block
  can leave: a timeout (`asyncio.TimeoutError`), a transport failure
  (`aiohttp.ClientError`), an HTTP response with a status and parsed JSON
  body, or any other unexpected exception.  Wall-clock readings
  (`dt_util.utcnow().timestamp()` / `.isoformat()`) are passed in as opaque
  strings, since real time is external input to the program.
-/

/-- A JSON-like value, used for request payloads and descriptor fields. -/
inductive JsonVal where
  | str (s : String)
  | bool (b : Bool)
  | null
  | obj (fields : List (String × JsonVal))

/-- Field lookup on a JSON object (`none` on other shapes), mirroring
Python `dict.get(k)` on a parsed JSON object. -/
def JsonVal.get : JsonVal → String → Option JsonVal
  | .obj fields, k => List.lookup k fields
  | _, _ => none

/-- Lift an optional string to a JSON value (`None` serialises to `null`). -/
def optStr : Option String → JsonVal
  | some s => .str s
  | none => .null

/-- Lookup of a field inside the `context` object of a request payload. -/
def payloadContextField (payload : JsonVal) (k : String) : Option JsonVal :=
  (payload.get "context").bind (fun c => c.get k)

/-- Python truthiness of an optional string: `None` and `""` are falsy. -/
def pyTruthy : Option String → Bool
  | none => false
  | some s => s != ""

/-- `conversation.ConversationInput`: one utterance plus its metadata. -/
structure ConversationInput where
  text : String
  conversation_id : String
  device_id : Option String
  language : String
  user_id : Option String

/-- The result of one turn: the spoken reply (set on the intent response via
`async_set_speech`), the continuation flag, and the echoed conversation id. -/
structure ConversationResult where
  conversation_id : String
  reply_text : String
  continue_conversation : Bool

/-- One entry of `data.actions`: a suggested Home Assistant service call.
All fields are read with `action.get(...)`, hence optional. -/
structure ActionDescriptor where
  domain : Option String
  service : Option String
  data : Option JsonVal
  target : Option JsonVal

/-- The `data` object of a success envelope; every field is read with a
`.get(key, default)`, hence optional here. -/
structure ConversationData where
  response : Option String
  continue_conversation : Option Bool
  actions : Option (List ActionDescriptor)
  media_actions : Option (List JsonVal)

/-- The `{}` default used by `result_data.get("data", {})`. -/
def emptyData : ConversationData :=
  { response := none, continue_conversation := none, actions := none, media_actions := none }

/-- The parsed JSON body of a backend reply:
`{success: bool, data?: {...}, error?: string}`. -/
structure Envelope where
  success : Option Bool
  error : Option String
  data : Option ConversationData

/-- How the HTTP call inside the `try` block of `async_process` ends. -/
inductive HttpOutcome where
  | timeout
  | transportError
  | response (status : Nat) (body : Envelope)
  | otherError

/-- An outcome counts as success when the status is 200 and the body has
`success` equal to `true` (`result_data.get("success", False)`). -/
def isSuccessOutcome : HttpOutcome → Bool
  | .response status body => status == 200 && body.success.getD false
  | _ => false

/-- `_create_error_response`: apology text as the reply and
`continue_conversation=False`.  Identical in both revisions. -/
def create_error_response (u : ConversationInput) (error_message : String) :
    ConversationResult :=
  { conversation_id := u.conversation_id
    reply_text := error_message
    continue_conversation := false }

/-- An executed `hass.services.async_call` with its arguments.  The defaults
`action.get("data", {})` and `action.get("target", {})` appear as `.obj []`. -/
structure ServiceCall where
  domain : String
  service : String
  service_data : JsonVal
  target : JsonVal

/-- What happened to one descriptor of a batch: either the service call was
attempted (`failed` records whether `async_call` raised, the exception being
caught and logged), or the descriptor was skipped as invalid with a warning. -/
inductive DispatchEvent where
  | invoked (call : ServiceCall) (failed : Bool)
  | skipped (a : ActionDescriptor)

/-- `_handle_suggested_actions` (identical in both revisions): iterate the
batch in order; a descriptor whose `domain` or `service` is missing or empty
is skipped with a warning; otherwise `async_call` is attempted and any
exception it raises is caught and logged, so iteration always continues.
`invokeFails` says which calls raise. -/
def handle_suggested_actions (invokeFails : ServiceCall → Bool) :
    List ActionDescriptor → List DispatchEvent
  | [] => []
  | a :: rest =>
    let ev :=
      if pyTruthy a.domain && pyTruthy a.service then
        let c : ServiceCall :=
          { domain := a.domain.getD ""
            service := a.service.getD ""
            service_data := a.data.getD (.obj [])
            target := a.target.getD (.obj []) }
        DispatchEvent.invoked c (invokeFails c)
      else DispatchEvent.skipped a
    ev :: handle_suggested_actions invokeFails rest

/-- The service calls attempted by a batch, in order. -/
def invokedCalls : List DispatchEvent → List ServiceCall
  | [] => []
  | .invoked c _ :: rest => c :: invokedCalls rest
  | .skipped _ :: rest => invokedCalls rest

/-- One outbound HTTP POST: target URL and JSON payload. -/
structure Request where
  url : String
  payload : JsonVal

namespace Stateful

/-- One record of `self._conversation_sessions[conversation_id]`. -/
structure SessionRecord where
  session_id : String
  started_at : String
  turn_count : Nat

/-- The `self._conversation_sessions` dict, keyed by conversation id. -/
abbrev Sessions := List (String × SessionRecord)

/-- Dict read: value stored at a key, if any. -/
def dictGet : Sessions → String → Option SessionRecord
  | [], _ => none
  | (k2, v2) :: rest, k => if k2 = k then some v2 else dictGet rest k

/-- Dict write: replace the value at the key, or append a fresh entry. -/
def dictSet : Sessions → String → SessionRecord → Sessions
  | [], k, v => [(k, v)]
  | (k2, v2) :: rest, k, v =>
    if k2 = k then (k, v) :: rest else (k2, v2) :: dictSet rest k v

/-- The minted session id
`f"ha_{conversation_id}_{dt_util.utcnow().timestamp()}"`, with the rendered
timestamp passed in as a string. -/
def mk_session_id (conversation_id : String) (nowTs : String) : String :=
  "ha_" ++ conversation_id ++ "_" ++ nowTs

/-- `_get_or_create_session`: insert a fresh record (turn count 0) when the
key is absent, then increment the turn count in place and return the stored
session id.  Embedded as fetch-or-default, increment, store. -/
def get_or_create_session (sessions : Sessions) (conversation_id : String)
    (nowTs nowIso : String) : String × Sessions :=
  let base :=
    match dictGet sessions conversation_id with
    | some r => r
    | none =>
      { session_id := mk_session_id conversation_id nowTs
        started_at := nowIso
        turn_count := 0 }
  let r := { base with turn_count := base.turn_count + 1 }
  (r.session_id, dictSet sessions conversation_id r)

/-- Repeated calls to `_get_or_create_session` for one conversation id,
with the timestamp pair of each call supplied; returns the session ids
returned by the calls and the final registry. -/
def run_calls (sessions : Sessions) (cid : String) :
    List (String × String) → List String × Sessions
  | [] => ([], sessions)
  | t :: rest =>
    let step := get_or_create_session sessions cid t.1 t.2
    let tail := run_calls step.2 cid rest
    (step.1 :: tail.1, tail.2)

/-- The statically configured URL built in `__init__`:
`f"http://{host}:{port}/api/v1/conversation"`. -/
def api_url_of (host : String) (port : Nat) : String :=
  "http://" ++ host ++ ":" ++ toString port ++ "/api/v1/conversation"

/-- How the read of `input_text.glitchcube_host` goes: the entity exists and
holds a state string, the entity is absent, or the read raises. -/
inductive OverrideRead where
  | ok (state : String)
  | missing
  | failed

/-- `_get_current_api_url`: use the dynamic host when the override entity
exists and its state is truthy; on an absent entity, an empty state, or a
read error (caught and logged), fall back to the configured URL. -/
def get_current_api_url (static_api_url : String) (port : Nat)
    (override : OverrideRead) : String :=
  match override with
  | .ok st =>
    if st != "" then "http://" ++ st ++ ":" ++ toString port ++ "/api/v1/conversation"
    else static_api_url
  | .missing => static_api_url
  | .failed => static_api_url

/-- The request payload of the stateful revision. -/
def build_payload (u : ConversationInput) (session_id : String)
    (nowIso : String) (agent_id : String) : JsonVal :=
  .obj [("message", .str u.text),
        ("context", .obj [
          ("conversation_id", .str u.conversation_id),
          ("ha_conversation_id", .str u.conversation_id),
          ("session_id", .str session_id),
          ("device_id", optStr u.device_id),
          ("language", .str u.language),
          ("voice_interaction", .bool true),
          ("timestamp", .str nowIso),
          ("ha_context", .obj [
            ("agent_id", .str agent_id),
            ("user_id", optStr u.user_id)])])]

/-- `async_process` of the stateful revision: resolve the URL, mint or fetch
the session (incrementing its turn count) before the POST, build the payload,
then translate the HTTP outcome.  Every failure is caught and mapped to an
apology reply; on success the reply text defaults when `response` is absent
and the continuation flag defaults to `True`. -/
def async_process (sessions : Sessions) (u : ConversationInput)
    (static_api_url : String) (port : Nat) (override : OverrideRead)
    (agent_id : String) (nowTs nowIso : String) (outcome : HttpOutcome) :
    ConversationResult × Sessions × Request :=
  let api_url := get_current_api_url static_api_url port override
  let step := get_or_create_session sessions u.conversation_id nowTs nowIso
  let session_id := step.1
  let sessions2 := step.2
  let req : Request := { url := api_url, payload := build_payload u session_id nowIso agent_id }
  match outcome with
  | .timeout =>
    (create_error_response u "I\x27m having trouble thinking right now. Please try again.",
     sessions2, req)
  | .transportError =>
    (create_error_response u "I can\x27t connect to my brain right now. Please try again.",
     sessions2, req)
  | .otherError =>
    (create_error_response u "I encountered an unexpected error. Please try again.",
     sessions2, req)
  | .response status body =>
    if status ≠ 200 then
      (create_error_response u "Something went wrong with my thinking. Please try again.",
       sessions2, req)
    else if !(body.success.getD false) then
      (create_error_response u "Something went wrong with my thinking. Please try again.",
       sessions2, req)
    else
      let conversation_data := body.data.getD emptyData
      let response_text := conversation_data.response.getD "I didn\x27t understand that."
      let continue_conversation := conversation_data.continue_conversation.getD true
      ({ conversation_id := u.conversation_id
         reply_text := response_text
         continue_conversation := continue_conversation },
       sessions2, req)

end Stateful

namespace Production

/-- The request payload of the production revision: no session id and no
`ha_conversation_id` field in the context. -/
def build_payload (u : ConversationInput) (nowIso : String)
    (agent_id : String) : JsonVal :=
  .obj [("message", .str u.text),
        ("context", .obj [
          ("conversation_id", .str u.conversation_id),
          ("device_id", optStr u.device_id),
          ("language", .str u.language),
          ("voice_interaction", .bool true),
          ("timestamp", .str nowIso),
          ("ha_context", .obj [
            ("agent_id", .str agent_id),
            ("user_id", optStr u.user_id)])])]

/-- `async_process` of the production revision: static URL, no session
state, same failure mapping, and a success-path continuation flag that
defaults to `False`. -/
def async_process (u : ConversationInput) (api_url : String)
    (agent_id : String) (nowIso : String) (outcome : HttpOutcome) :
    ConversationResult × Request :=
  let req : Request := { url := api_url, payload := build_payload u nowIso agent_id }
  match outcome with
  | .timeout =>
    (create_error_response u "I\x27m having trouble thinking right now. Please try again.", req)
  | .transportError =>
    (create_error_response u "I can\x27t connect to my brain right now. Please try again.", req)
  | .otherError =>
    (create_error_response u "I encountered an unexpected error. Please try again.", req)
  | .response status body =>
    if status ≠ 200 then
      (create_error_response u "Something went wrong with my thinking. Please try again.", req)
    else if !(body.success.getD false) then
      (create_error_response u "Something went wrong with my thinking. Please try again.", req)
    else
      let conversation_data := body.data.getD emptyData
      let response_text := conversation_data.response.getD "I didn\x27t understand that."
      let continue_conversation := conversation_data.continue_conversation.getD false
      ({ conversation_id := u.conversation_id
         reply_text := response_text
         continue_conversation := continue_conversation },
       req)

end Production

/-- A fixed sample utterance used by concrete witnesses. -/
def u0 : ConversationInput :=
  { text := "hello", conversation_id := "c1", device_id := none, language := "en", user_id := none }

/-- A sample success envelope whose data carries a reply text. -/
def env1 : Envelope :=
  { success := some true, error := none
    data := some { response := some "Hi!", continue_conversation := none,
                   actions := none, media_actions := none } }

/-- Claim C1: every backend failure is absorbed (no exception reaches the
caller, embedded by `async_process` being a total function over all
`HttpOutcome`s) and maps to its specific apology with
`continue_conversation = false`: timeout to the trouble-thinking apology,
transport error to the cannot-connect apology, non-200 status or a
`success:false` envelope to the something-went-wrong apology, and any other
unexpected failure to the generic apology. -/
theorem stateful_failure_paths_apologies
    (sessions : Stateful.Sessions) (u : ConversationInput)
    (static_api_url : String) (port : Nat) (ov : Stateful.OverrideRead)
    (agent nowTs nowIso : String) :
    ((Stateful.async_process sessions u static_api_url port ov agent nowTs nowIso
        .timeout).1.reply_text
        = "I\x27m having trouble thinking right now. Please try again." ∧
     (Stateful.async_process sessions u static_api_url port ov agent nowTs nowIso
        .timeout).1.continue_conversation = false) ∧
    ((Stateful.async_process sessions u static_api_url port ov agent nowTs nowIso
        .transportError).1.reply_text
        = "I can\x27t connect to my brain right now. Please try again." ∧
     (Stateful.async_process sessions u static_api_url port ov agent nowTs nowIso
        .transportError).1.continue_conversation = false) ∧
    ((Stateful.async_process sessions u static_api_url port ov agent nowTs nowIso
        .otherError).1.reply_text
        = "I encountered an unexpected error. Please try again." ∧
     (Stateful.async_process sessions u static_api_url port ov agent nowTs nowIso
        .otherError).1.continue_conversation = false) ∧
    (∀ status body, isSuccessOutcome (.response status body) = false →
      (Stateful.async_process sessions u static_api_url port ov agent nowTs nowIso
        (.response status body)).1.reply_text
        = "Something went wrong with my thinking. Please try again." ∧
      (Stateful.async_process sessions u static_api_url port ov agent nowTs nowIso
        (.response status body)).1.continue_conversation = false) := by
  refine ⟨⟨rfl, rfl⟩, ⟨rfl, rfl⟩, ⟨rfl, rfl⟩, ?_⟩
  intro status body h
  by_cases hs : status = 200
  · subst hs
    simp [isSuccessOutcome] at h
    simp [Stateful.async_process, create_error_response, h]
  · simp [Stateful.async_process, create_error_response, hs]

/-- Witness for C1 at a concrete input: a 500 status with a concrete
utterance yields the backend-failure apology, continuation false. -/
theorem stateful_failure_paths_apologies_witness :
    (Stateful.async_process [] u0 "u" 4567 .missing "a" "1" "2"
      (.response 500 { success := some true, error := none, data := none })).1.reply_text
      = "Something went wrong with my thinking. Please try again." ∧
    (Stateful.async_process [] u0 "u" 4567 .missing "a" "1" "2"
      (.response 500 { success := some true, error := none, data := none })).1.continue_conversation
      = false :=
  (stateful_failure_paths_apologies [] u0 "u" 4567 .missing "a" "1" "2").2.2.2
    500 { success := some true, error := none, data := none } (by decide)

/-- Claim C2: for an HTTP 200 response with `success = true`, both revisions
return `data.response` verbatim as the reply when the field is present, and
the fixed fallback string when it is absent. -/
theorem success_reply_verbatim
    (sessions : Stateful.Sessions) (u : ConversationInput)
    (static_api_url : String) (port : Nat) (ov : Stateful.OverrideRead)
    (agent nowTs nowIso api_url : String) (body : Envelope)
    (hs : body.success = some true) :
    (∀ r, (body.data.getD emptyData).response = some r →
      (Stateful.async_process sessions u static_api_url port ov agent nowTs nowIso
        (.response 200 body)).1.reply_text = r ∧
      (Production.async_process u api_url agent nowIso
        (.response 200 body)).1.reply_text = r) ∧
    ((body.data.getD emptyData).response = none →
      (Stateful.async_process sessions u static_api_url port ov agent nowTs nowIso
        (.response 200 body)).1.reply_text = "I didn\x27t understand that." ∧
      (Production.async_process u api_url agent nowIso
        (.response 200 body)).1.reply_text = "I didn\x27t understand that.") := by
  constructor
  · intro r hr
    constructor <;> simp [Stateful.async_process, Production.async_process, hs, hr]
  · intro hr
    constructor <;> simp [Stateful.async_process, Production.async_process, hs, hr]

/-- Witness for C2 at a concrete input: reply "Hi!" is returned verbatim by
both revisions. -/
theorem success_reply_verbatim_witness :
    (Stateful.async_process [] u0 "u" 4567 .missing "a" "1" "2"
      (.response 200 env1)).1.reply_text = "Hi!" ∧
    (Production.async_process u0 "u" "a" "2"
      (.response 200 env1)).1.reply_text = "Hi!" :=
  (success_reply_verbatim [] u0 "u" 4567 .missing "a" "1" "2" "u" env1 rfl).1 "Hi!" rfl

/-- Claim C3: for a success envelope, when `data.continue_conversation` is
absent the stateful revision continues (`true`) and the production revision
does not (`false`); when the field is present both revisions return its
value. -/
theorem continuation_default_by_revision
    (sessions : Stateful.Sessions) (u : ConversationInput)
    (static_api_url : String) (port : Nat) (ov : Stateful.OverrideRead)
    (agent nowTs nowIso api_url : String) (body : Envelope)
    (hs : body.success = some true) :
    ((body.data.getD emptyData).continue_conversation = none →
      (Stateful.async_process sessions u static_api_url port ov agent nowTs nowIso
        (.response 200 body)).1.continue_conversation = true ∧
      (Production.async_process u api_url agent nowIso
        (.response 200 body)).1.continue_conversation = false) ∧
    (∀ b, (body.data.getD emptyData).continue_conversation = some b →
      (Stateful.async_process sessions u static_api_url port ov agent nowTs nowIso
        (.response 200 body)).1.continue_conversation = b ∧
      (Production.async_process u api_url agent nowIso
        (.response 200 body)).1.continue_conversation = b) := by
  constructor
  · intro hc
    constructor <;> simp [Stateful.async_process, Production.async_process, hs, hc]
  · intro b hc
    constructor <;> simp [Stateful.async_process, Production.async_process, hs, hc]

/-- Witness for C3 at a concrete input: with the field absent, the stateful
revision returns true and the production revision false. -/
theorem continuation_default_by_revision_witness :
    (Stateful.async_process [] u0 "u" 4567 .missing "a" "1" "2"
      (.response 200 env1)).1.continue_conversation = true ∧
    (Production.async_process u0 "u" "a" "2"
      (.response 200 env1)).1.continue_conversation = false :=
  (continuation_default_by_revision [] u0 "u" 4567 .missing "a" "1" "2" "u" env1 rfl).1 rfl

/-- Claim C6: when the dynamic address override is readable and non-empty
the request URL is built from the override host; when the override is
absent, empty, or the read fails, the statically configured URL is used.
Resolution is a total function, so it never raises past the call. -/
theorem endpoint_override_resolution (static_api_url : String) (port : Nat) :
    (∀ v, v ≠ "" →
      Stateful.get_current_api_url static_api_url port (.ok v)
        = "http://" ++ v ++ ":" ++ toString port ++ "/api/v1/conversation") ∧
    (Stateful.get_current_api_url static_api_url port (.ok "") = static_api_url) ∧
    (Stateful.get_current_api_url static_api_url port .missing = static_api_url) ∧
    (Stateful.get_current_api_url static_api_url port .failed = static_api_url) := by
  refine ⟨?_, rfl, rfl, rfl⟩
  intro v hv
  have hb : (v != "") = true := by simpa using hv
  simp [Stateful.get_current_api_url, hb]

/-- Witness for C6 at the concrete input of the spec: override "10.0.0.5"
over static host "localhost" sends the request to 10.0.0.5. -/
theorem endpoint_override_resolution_witness :
    Stateful.get_current_api_url (Stateful.api_url_of "localhost" 4567) 4567
      (.ok "10.0.0.5") = "http://10.0.0.5:4567/api/v1/conversation" :=
  ((endpoint_override_resolution (Stateful.api_url_of "localhost" 4567) 4567).1
    "10.0.0.5" (by decide)).trans (by rfl)

/-- Claim C7: the dispatcher walks the batch in order producing one event
per descriptor (nothing aborts the batch and the function is total, so the
call never raises); the attempted service calls do not depend on which
invocations fail; and in the concrete three-entry batch whose second entry
lacks `service`, entries one and three are still dispatched. -/
theorem action_batch_isolation (fails fails2 : ServiceCall → Bool)
    (actions : List ActionDescriptor) :
    (invokedCalls (handle_suggested_actions fails actions)
      = invokedCalls (handle_suggested_actions fails2 actions)) ∧
    ((handle_suggested_actions fails actions).length = actions.length) ∧
    (invokedCalls (handle_suggested_actions fails
        [{ domain := some "light", service := some "turn_on", data := none, target := none },
         { domain := some "light", service := none, data := none, target := none },
         { domain := some "media_player", service := some "play_media", data := none, target := none }])
      = [{ domain := "light", service := "turn_on", service_data := .obj [], target := .obj [] },
         { domain := "media_player", service := "play_media", service_data := .obj [], target := .obj [] }]) := by
  refine ⟨?_, ?_, rfl⟩
  · induction actions with
    | nil => rfl
    | cons a rest ih =>
      by_cases h : (pyTruthy a.domain && pyTruthy a.service) = true <;>
        simp [handle_suggested_actions, invokedCalls, h, ih]
  · induction actions with
    | nil => rfl
    | cons a rest ih => simp [handle_suggested_actions, ih]

/-- Claim C9: the request body round-trips its inputs in both revisions —
`message` is the utterance text, `context.conversation_id` is the
utterance's conversation id, and `context.voice_interaction` is true. -/
theorem request_payload_round_trip (u : ConversationInput)
    (sid nowIso agent : String) :
    ((Stateful.build_payload u sid nowIso agent).get "message"
      = some (.str u.text)) ∧
    (payloadContextField (Stateful.build_payload u sid nowIso agent)
      "conversation_id" = some (.str u.conversation_id)) ∧
    (payloadContextField (Stateful.build_payload u sid nowIso agent)
      "voice_interaction" = some (.bool true)) ∧
    ((Production.build_payload u nowIso agent).get "message"
      = some (.str u.text)) ∧
    (payloadContextField (Production.build_payload u nowIso agent)
      "conversation_id" = some (.str u.conversation_id)) ∧
    (payloadContextField (Production.build_payload u nowIso agent)
      "voice_interaction" = some (.bool true)) :=
  ⟨rfl, rfl, rfl, rfl, rfl, rfl⟩

/-- In the production revision every outcome leaves the same outbound
request: the static URL and the session-free payload. -/
theorem Production.async_process_request (u : ConversationInput)
    (api_url agent nowIso : String) (o : HttpOutcome) :
    (Production.async_process u api_url agent nowIso o).2
      = { url := api_url, payload := Production.build_payload u nowIso agent } := by
  cases o <;>
    first
      | rfl
      | (simp only [Production.async_process]; split_ifs <;> rfl)

/-- Claim C5 counterexample: in the production (stateless) revision the
request context contains no `session_id` field at all; in particular it does
not carry the derived id `"voice_" ++ conversation_id` claimed by the spec. -/
theorem stateless_derived_session_id_counterexample :
    payloadContextField
      (Production.build_payload u0 "2024-08-20T00:00:00+00:00" "glitchcube_conversation_e1")
      "session_id" = none ∧
    ¬ payloadContextField
      (Production.build_payload u0 "2024-08-20T00:00:00+00:00" "glitchcube_conversation_e1")
      "session_id" = some (.str ("voice_" ++ "c1")) := by
  refine ⟨rfl, ?_⟩
  intro h
  exact Option.noConfusion h

/-- Claim C5 (amended): in the production (stateless) revision the session
registry is removed as stored state and the outbound request for every
utterance and outcome carries the session-free payload: its context has no
`session_id` field and identifies the conversation only by
`conversation_id`. -/
theorem stateless_no_session_id_in_request (u : ConversationInput)
    (api_url agent nowIso : String) (o : HttpOutcome) :
    (Production.async_process u api_url agent nowIso o).2.payload
      = Production.build_payload u nowIso agent ∧
    payloadContextField (Production.build_payload u nowIso agent)
      "session_id" = none ∧
    payloadContextField (Production.build_payload u nowIso agent)
      "conversation_id" = some (.str u.conversation_id) := by
  refine ⟨?_, rfl, rfl⟩
  rw [Production.async_process_request u api_url agent nowIso o]

/-- Reading a key just written returns the written record. -/
theorem Stateful.dictGet_dictSet_self (d : Stateful.Sessions) (k : String)
    (v : Stateful.SessionRecord) :
    Stateful.dictGet (Stateful.dictSet d k v) k = some v := by
  induction d with
  | nil => simp [Stateful.dictSet, Stateful.dictGet]
  | cons p rest ih =>
    obtain ⟨k2, v2⟩ := p
    by_cases h : k2 = k <;> simp [Stateful.dictSet, Stateful.dictGet, h, ih]

/-- `_get_or_create_session` on an absent key mints a fresh record with turn
count 1 and returns the minted id. -/
theorem Stateful.get_or_create_session_absent (s : Stateful.Sessions)
    (cid nowTs nowIso : String) (h : Stateful.dictGet s cid = none) :
    Stateful.get_or_create_session s cid nowTs nowIso
      = (Stateful.mk_session_id cid nowTs,
         Stateful.dictSet s cid
           { session_id := Stateful.mk_session_id cid nowTs
             started_at := nowIso, turn_count := 1 }) := by
  simp [Stateful.get_or_create_session, h]

/-- `_get_or_create_session` on a present key increments the turn count and
returns the stored id. -/
theorem Stateful.get_or_create_session_present (s : Stateful.Sessions)
    (cid nowTs nowIso : String) (r : Stateful.SessionRecord)
    (h : Stateful.dictGet s cid = some r) :
    Stateful.get_or_create_session s cid nowTs nowIso
      = (r.session_id,
         Stateful.dictSet s cid { r with turn_count := r.turn_count + 1 }) := by
  simp [Stateful.get_or_create_session, h]

/-- Claim C10 (implicit): the stateful revision updates the session registry
before the HTTP call — after `async_process` the registry is always the
post-`_get_or_create_session` registry, so even on a failed turn the
conversation's turn count has already been incremented (a failed turn still
counts), while the failure reply itself carries continuation false. -/
theorem failed_turn_still_counts
    (sessions : Stateful.Sessions) (u : ConversationInput)
    (static_api_url : String) (port : Nat) (ov : Stateful.OverrideRead)
    (agent nowTs nowIso : String) :
    (∀ o, (Stateful.async_process sessions u static_api_url port ov agent nowTs nowIso o).2.1
      = (Stateful.get_or_create_session sessions u.conversation_id nowTs nowIso).2) ∧
    (∀ o, ∃ r, Stateful.dictGet
        (Stateful.async_process sessions u static_api_url port ov agent nowTs nowIso o).2.1
        u.conversation_id = some r ∧
      r.turn_count = (match Stateful.dictGet sessions u.conversation_id with
        | some r0 => r0.turn_count + 1
        | none => 1)) ∧
    (∀ o, isSuccessOutcome o = false →
      (Stateful.async_process sessions u static_api_url port ov agent nowTs nowIso
        o).1.continue_conversation = false) := by
  have hstate : ∀ o,
      (Stateful.async_process sessions u static_api_url port ov agent nowTs nowIso o).2.1
        = (Stateful.get_or_create_session sessions u.conversation_id nowTs nowIso).2 := by
    intro o
    cases o <;>
      first
        | rfl
        | (simp only [Stateful.async_process]; split_ifs <;> rfl)
  refine ⟨hstate, ?_, ?_⟩
  · intro o
    rw [hstate o]
    cases hdg : Stateful.dictGet sessions u.conversation_id with
    | some r0 =>
      have h2 := congrArg Prod.snd
        (Stateful.get_or_create_session_present sessions u.conversation_id nowTs nowIso r0 hdg)
      rw [h2]
      exact ⟨{ r0 with turn_count := r0.turn_count + 1 },
        Stateful.dictGet_dictSet_self _ _ _, by simp⟩
    | none =>
      have h2 := congrArg Prod.snd
        (Stateful.get_or_create_session_absent sessions u.conversation_id nowTs nowIso hdg)
      rw [h2]
      exact ⟨_, Stateful.dictGet_dictSet_self _ _ _, by simp⟩
  · intro o ho
    cases o with
    | timeout => rfl
    | transportError => rfl
    | otherError => rfl
    | response status body =>
      by_cases hs : status = 200
      · subst hs
        simp [isSuccessOutcome] at ho
        simp [Stateful.async_process, create_error_response, ho]
      · simp [Stateful.async_process, create_error_response, hs]

/-- Witness for C10 at a concrete input: on a timeout for a fresh
conversation the registry still records the incremented turn and the reply
does not continue the conversation. -/
theorem failed_turn_still_counts_witness :
    ((Stateful.async_process [] u0 "u" 4567 .missing "a" "1" "2" .timeout).2.1
      = (Stateful.get_or_create_session [] u0.conversation_id "1" "2").2) ∧
    (Stateful.async_process [] u0 "u" 4567 .missing "a" "1" "2"
      .timeout).1.continue_conversation = false := by
  have h := failed_turn_still_counts [] u0 "u" 4567 .missing "a" "1" "2"
  exact ⟨h.1 .timeout, h.2.2 .timeout (by decide)⟩

/-- Unfolding of one step of repeated `_get_or_create_session` calls. -/
theorem Stateful.run_calls_cons (s : Stateful.Sessions) (cid : String)
    (t : String × String) (rest : List (String × String)) :
    Stateful.run_calls s cid (t :: rest)
      = ((Stateful.get_or_create_session s cid t.1 t.2).1
          :: (Stateful.run_calls (Stateful.get_or_create_session s cid t.1 t.2).2 cid rest).1,
         (Stateful.run_calls (Stateful.get_or_create_session s cid t.1 t.2).2 cid rest).2) := rfl

/-- Invariant of repeated `_get_or_create_session` calls: once a record is
stored, every further call returns its session id and each call adds exactly
one to its turn count. -/
theorem Stateful.run_calls_stable (cid : String) :
    ∀ (L : List (String × String)) (s : Stateful.Sessions) (r : Stateful.SessionRecord),
      Stateful.dictGet s cid = some r →
      ((∀ sid ∈ (Stateful.run_calls s cid L).1, sid = r.session_id) ∧
       ∃ r2, Stateful.dictGet (Stateful.run_calls s cid L).2 cid = some r2 ∧
         r2.session_id = r.session_id ∧ r2.turn_count = r.turn_count + L.length) := by
  intro L
  induction L with
  | nil =>
    intro s r h
    refine ⟨?_, r, h, rfl, by simp [Stateful.run_calls]⟩
    intro sid hsid
    simp [Stateful.run_calls] at hsid
  | cons t rest ih =>
    intro s r h
    have hstep := Stateful.get_or_create_session_present s cid t.1 t.2 r h
    have hget : Stateful.dictGet (Stateful.get_or_create_session s cid t.1 t.2).2 cid
        = some { r with turn_count := r.turn_count + 1 } := by
      rw [congrArg Prod.snd hstep]
      exact Stateful.dictGet_dictSet_self _ _ _
    obtain ⟨hall, r2, hr2, hsid2, htc2⟩ :=
      ih (Stateful.get_or_create_session s cid t.1 t.2).2
        { r with turn_count := r.turn_count + 1 } hget
    constructor
    · intro sid hsid
      rw [Stateful.run_calls_cons] at hsid
      simp at hsid
      rcases hsid with h1 | h1
      · rw [h1, congrArg Prod.fst hstep]
      · exact hall sid h1
    · refine ⟨r2, ?_, hsid2, ?_⟩
      · rw [Stateful.run_calls_cons]
        exact hr2
      · rw [htc2, List.length_cons]
        show r.turn_count + 1 + rest.length = r.turn_count + (rest.length + 1)
        omega

/-- Claim C4: starting from a registry with no record for the conversation
id, after the k-th of a sequence of `_get_or_create_session` calls the
stored turn count equals k (so it starts at 1, rises by exactly 1 per call,
and never decreases or resets), and every call returns the session id minted
by the first call. -/
theorem session_turn_monotonic (s : Stateful.Sessions) (cid : String)
    (t : String × String) (rest : List (String × String))
    (hfresh : Stateful.dictGet s cid = none) :
    (∀ k, 1 ≤ k → k ≤ (t :: rest).length →
      ∃ r, Stateful.dictGet (Stateful.run_calls s cid ((t :: rest).take k)).2 cid = some r ∧
        r.turn_count = k ∧ r.session_id = Stateful.mk_session_id cid t.1) ∧
    (∀ sid ∈ (Stateful.run_calls s cid (t :: rest)).1,
      sid = Stateful.mk_session_id cid t.1) := by
  have hstep := Stateful.get_or_create_session_absent s cid t.1 t.2 hfresh
  have hget : Stateful.dictGet (Stateful.get_or_create_session s cid t.1 t.2).2 cid
      = some { session_id := Stateful.mk_session_id cid t.1
               started_at := t.2, turn_count := 1 } := by
    rw [congrArg Prod.snd hstep]
    exact Stateful.dictGet_dictSet_self _ _ _
  constructor
  · intro k hk1 hk2
    obtain ⟨k2, rfl⟩ : ∃ k2, k = k2 + 1 := ⟨k - 1, by omega⟩
    have htake : (t :: rest).take (k2 + 1) = t :: rest.take k2 := rfl
    rw [htake, Stateful.run_calls_cons]
    obtain ⟨-, r2, hr2, hsid2, htc2⟩ :=
      Stateful.run_calls_stable cid (rest.take k2)
        (Stateful.get_or_create_session s cid t.1 t.2).2
        { session_id := Stateful.mk_session_id cid t.1
          started_at := t.2, turn_count := 1 } hget
    refine ⟨r2, hr2, ?_, by rw [hsid2]⟩
    have hlen : (rest.take k2).length = k2 := by
      rw [List.length_take]
      simp at hk2
      omega
    rw [htc2, hlen]
    show 1 + k2 = k2 + 1
    omega
  · intro sid hsid
    rw [Stateful.run_calls_cons] at hsid
    simp at hsid
    rcases hsid with h1 | h1
    · rw [h1, congrArg Prod.fst hstep]
    · obtain ⟨hall, -⟩ :=
        Stateful.run_calls_stable cid rest
          (Stateful.get_or_create_session s cid t.1 t.2).2
          { session_id := Stateful.mk_session_id cid t.1
            started_at := t.2, turn_count := 1 } hget
      exact hall sid h1

/-- Witness for C4 at a concrete input: two calls for a fresh conversation
leave turn count 2 and keep the first minted session id. -/
theorem session_turn_monotonic_witness :
    ∃ r, Stateful.dictGet
        (Stateful.run_calls [] "c1" ([("1", "i1"), ("2", "i2")].take 2)).2 "c1" = some r ∧
      r.turn_count = 2 ∧ r.session_id = Stateful.mk_session_id "c1" "1" :=
  (session_turn_monotonic [] "c1" ("1", "i1") [("2", "i2")] rfl).1 2
    (by decide) (by decide)

/-- If the separator occurs in neither left part, splitting a list at its
first occurrence of the separator is unique. -/
theorem sep_split_unique {α : Type} (sep : α) :
    ∀ (xs xs2 ys ys2 : List α), sep ∉ xs → sep ∉ xs2 →
      xs ++ sep :: ys = xs2 ++ sep :: ys2 → xs = xs2 ∧ ys = ys2 := by
  intro xs
  induction xs with
  | nil =>
    intro xs2 ys ys2 _ h2 heq
    cases xs2 with
    | nil => simpa using heq
    | cons b t =>
      simp at heq
      have hmem : sep ∈ b :: t := by
        rw [heq.1]
        exact List.mem_cons_self b t
      exact absurd hmem h2
  | cons a t ih =>
    intro xs2 ys ys2 h1 h2 heq
    cases xs2 with
    | nil =>
      simp at heq
      have hmem : sep ∈ a :: t := by
        rw [← heq.1]
        exact List.mem_cons_self a t
      exact absurd hmem h1
    | cons b t2 =>
      simp at heq
      obtain ⟨hab, heq2⟩ := heq
      have h1b : sep ∉ t := fun hm => h1 (List.mem_cons_of_mem a hm)
      have h2b : sep ∉ t2 := fun hm => h2 (List.mem_cons_of_mem b hm)
      obtain ⟨ht, hy⟩ := ih t2 ys ys2 h1b h2b heq2
      exact ⟨by rw [hab, ht], hy⟩

/-- If the separator occurs in neither right part, splitting a list at its
last occurrence of the separator is unique. -/
theorem sep_split_unique_last {α : Type} (sep : α)
    (xs xs2 ys ys2 : List α) (h1 : sep ∉ ys) (h2 : sep ∉ ys2)
    (heq : xs ++ sep :: ys = xs2 ++ sep :: ys2) : xs = xs2 ∧ ys = ys2 := by
  have hrev : ys.reverse ++ sep :: xs.reverse = ys2.reverse ++ sep :: xs2.reverse := by
    have h3 := congrArg List.reverse heq
    simpa [List.reverse_append] using h3
  obtain ⟨hy, hx⟩ := sep_split_unique sep ys.reverse ys2.reverse xs.reverse xs2.reverse
    (by simpa using h1) (by simpa using h2) hrev
  exact ⟨List.reverse_injective hx, List.reverse_injective hy⟩

/-- Claim C8: distinct conversation ids never produce equal session ids in
the stateful revision: for any timestamp renderings free of the underscore
separator (decimal timestamps are), the minting map is injective in the
conversation id. -/
theorem session_id_injective (cid1 cid2 ts1 ts2 : String)
    (hne : cid1 ≠ cid2)
    (h1 : ('_' : Char) ∉ ts1.data) (h2 : ('_' : Char) ∉ ts2.data) :
    Stateful.mk_session_id cid1 ts1 ≠ Stateful.mk_session_id cid2 ts2 := by
  intro heq
  apply hne
  have hd : ("ha_".data ++ cid1.data ++ "_".data ++ ts1.data)
      = ("ha_".data ++ cid2.data ++ "_".data ++ ts2.data) := by
    have h3 := congrArg String.data heq
    simpa [Stateful.mk_session_id, String.data_append] using h3
  have hd2 : cid1.data ++ '_' :: ts1.data = cid2.data ++ '_' :: ts2.data := by
    have ha : "ha_".data = ['h', 'a', '_'] := rfl
    have hu : "_".data = ['_'] := rfl
    rw [ha, hu] at hd
    simpa using hd
  obtain ⟨hc, -⟩ := sep_split_unique_last '_' cid1.data cid2.data ts1.data ts2.data h1 h2 hd2
  exact String.ext hc

/-- Witness for C8 at a concrete input: conversation ids "a" and "b" with
timestamps "1" and "2" mint distinct session ids. -/
theorem session_id_injective_witness :
    Stateful.mk_session_id "a" "1" ≠ Stateful.mk_session_id "b" "2" :=
  session_id_injective "a" "b" "1" "2" (by decide) (by decide) (by decide)
